import Mathlib

/-!
# Verification of the Pub/Sub connector (`apache_beam/io/gcp/pubsub.py`)

A shallow embedding of the connector's data model and operations, followed by
theorems settling the specification claims.  Python strings are embedded as
Lean `String`/`List Char`, byte strings as `List Nat`, Python `None`-able
values as `Option`, and raised exceptions as `Except PyErr`.  The two regular
expressions of the source (`TOPIC_REGEXP`/`SUBSCRIPTION_REGEXP`, used via
`re.match`, i.e. anchored at the start only) are embedded as deterministic
matching functions; determinism of the backtracking search is argued in the
doc comments of the corresponding definitions.
-/

deriving instance DecidableEq for Except

/-- A raised Python exception: the source raises `ValueError` for
configuration mistakes and `TypeError` for wrong element/field types. -/
inductive PyErr where
  | valueError (msg : String) : PyErr
  | typeError (msg : String) : PyErr
deriving Repr, DecidableEq

/-- Simplified Python `repr` of a string (quoting, escapes omitted):
used only to build error-message text, mirroring `%r` formatting. -/
def pyRepr (s : String) : String := "\x27" ++ s ++ "\x27"

/-- Python truthiness of an optional string: `None` and `''` are falsy. -/
def truthy : Option String → Bool
  | none => false
  | some s => s ≠ ""

/-- `c ∈ [a-z]`. -/
def isLowerCh (c : Char) : Bool := 97 ≤ c.toNat && c.toNat ≤ 122

/-- `c ∈ [0-9]`. -/
def isDigitCh (c : Char) : Bool := 48 ≤ c.toNat && c.toNat ≤ 57

/-- `c ∈ [-a-z0-9:.]`, the middle character class of `PROJECT_ID_REGEXP`. -/
def isMidCh (c : Char) : Bool :=
  isLowerCh c || isDigitCh c || c = '-' || c = ':' || c = '.'

/-- `c ∈ [a-z0-9]`, the final character class of `PROJECT_ID_REGEXP`. -/
def isEndCh (c : Char) : Bool := isLowerCh c || isDigitCh c

/-- After the leading `[a-z]` character, does the remainder of the candidate
project id admit the regex tail `[-a-z0-9:.]{4,61}[a-z0-9]` starting at its
head, taking exactly `k` middle characters?  (Position `k` must exist and be
in the final class; positions `0..k-1` must be in the middle class.) -/
def matchAfterK (rest : List Char) (k : Nat) : Bool :=
  match rest.drop k with
  | [] => false
  | e :: _ => isEndCh e && (rest.take k).all isMidCh

/-- `re.match(PROJECT_ID_REGEXP, p)` for
`PROJECT_ID_REGEXP = '[a-z][-a-z0-9:.]{4,61}[a-z0-9]'`: anchored at the start
of `p` only (no `$` in the source pattern), so it succeeds whenever SOME
prefix of `p` matches, i.e. when some middle-run length `k ∈ [4,61]` works —
exactly the regex engine's backtracking search over `{4,61}`. -/
def projectIdPrefixMatchL (p : List Char) : Bool :=
  match p with
  | [] => false
  | c :: rest => isLowerCh c && (List.range 58).any (fun j => matchAfterK rest (j + 4))

/-- The specification's project-id grammar, FULL-string match
(`^[a-z][-a-z0-9:.]{4,61}[a-z0-9]$`, total length 6–63).  Written from the
spec's words (§4.1/§6) for comparison with the code's start-anchored check
`projectIdPrefixMatchL`. -/
def specProjectIdFull (p : List Char) : Bool :=
  match p with
  | [] => false
  | c :: rest =>
    match rest.getLast? with
    | none => false
    | some e =>
      isLowerCh c && isEndCh e && rest.dropLast.all isMidCh &&
        decide (5 ≤ rest.length) && decide (rest.length ≤ 62)

/-- Strip a literal character sequence from the front of the input
(`none` when the input does not start with it). -/
def stripLit : List Char → List Char → Option (List Char)
  | [], s => some s
  | _ :: _, [] => none
  | a :: as, c :: cs => if c = a then stripLit as cs else none

/-- The constant list of characters of `"projects/"`. -/
def projectsLit : List Char := "projects/".data

/-- Greedy capture of `([^/]+)`: the maximal `/`-free run (possibly empty,
in which case the one-or-more repetition fails). -/
def group1 (r : List Char) : List Char := r.takeWhile (fun c => c ≠ '/')

/-- Greedy capture of `(.+)`: the maximal newline-free run. -/
def group2 (r : List Char) : List Char := r.takeWhile (fun c => c ≠ '\n')

/-- `re.match('projects/([^/]+)/<mid>(.+)', s)`, returning the two capture
groups.  The search is deterministic: `([^/]+)` cannot cross a `/`, and
shortening it would place the following literal `/` on a non-`/` character,
so group 1 is exactly the maximal `/`-free run after `"projects/"`; `(.+)`
is greedy and `.` does not match a newline (no `re.DOTALL`), so group 2 is
the maximal newline-free run after the literal, which must be non-empty.
Trailing unmatched input (from the first newline on) is allowed, because
`re.match` does not anchor at the end. -/
def matchResourceL (mid : List Char) (cs : List Char) : Option (List Char × List Char) :=
  match stripLit projectsLit cs with
  | none => none
  | some r =>
    if group1 r = [] then none
    else
      match stripLit mid (r.drop (group1 r).length) with
      | none => none
      | some r2 =>
        if group2 r2 = [] then none else some (group1 r, group2 r2)

/-- `re.match(TOPIC_REGEXP, s)` with `TOPIC_REGEXP = 'projects/([^/]+)/topics/(.+)'`. -/
def matchTopicL (cs : List Char) : Option (List Char × List Char) :=
  matchResourceL "/topics/".data cs

/-- `re.match(SUBSCRIPTION_REGEXP, s)` with
`SUBSCRIPTION_REGEXP = 'projects/([^/]+)/subscriptions/(.+)'`. -/
def matchSubscriptionL (cs : List Char) : Option (List Char × List Char) :=
  matchResourceL "/subscriptions/".data cs

/-- Error message of `parse_topic` when the overall pattern does not match. -/
def topicFmtMsg (s : String) : String :=
  "PubSub topic must be in the form \"projects/<project>/topics/<topic>\" (got "
    ++ pyRepr s ++ ")."

/-- Error message of `parse_subscription` when the overall pattern does not match. -/
def subscriptionFmtMsg (s : String) : String :=
  "PubSub subscription must be in the form \"projects/<project>/subscriptions/<subscription>\" (got "
    ++ pyRepr s ++ ")."

/-- Error message when the embedded project id fails the project-id check. -/
def invalidProjMsg (p : String) : String :=
  "Invalid PubSub project name: " ++ pyRepr p ++ "."

/-- `parse_topic` of the source: match `TOPIC_REGEXP`, then check the captured
project against `PROJECT_ID_REGEXP` (start-anchored `re.match`). -/
def parse_topic (full_topic : String) : Except PyErr (String × String) :=
  match matchTopicL full_topic.data with
  | none => .error (.valueError (topicFmtMsg full_topic))
  | some pn =>
    if projectIdPrefixMatchL pn.1 then .ok (⟨pn.1⟩, ⟨pn.2⟩)
    else .error (.valueError (invalidProjMsg ⟨pn.1⟩))

/-- `parse_subscription` of the source. -/
def parse_subscription (full_subscription : String) : Except PyErr (String × String) :=
  match matchSubscriptionL full_subscription.data with
  | none => .error (.valueError (subscriptionFmtMsg full_subscription))
  | some pn =>
    if projectIdPrefixMatchL pn.1 then .ok (⟨pn.1⟩, ⟨pn.2⟩)
    else .error (.valueError (invalidProjMsg ⟨pn.1⟩))

/-! ## MessageCodec: `PubsubMessage` and its wire encoding

The source delegates the wire format to the protobuf library
(`pubsub.types.pubsub_pb2.PubsubMessage`, proto3).  The relevant library
semantics are embedded here: assigning `None` to a scalar (bytes) proto3
field raises `TypeError`; `SerializeToString` omits fields holding their
default value and renders length-delimited fields with varint lengths
(`data` is field 1, `attributes` the field-2 string→string map). -/

/-- A byte string: a list of byte values. -/
abbrev Bytes := List Nat

/-- `PubsubMessage` of the source: optional `data` payload and an optional
attribute dictionary (key/value insertion-ordered pairs; `None` allowed). -/
structure PubsubMessage where
  data : Option Bytes
  attributes : Option (List (String × String))
deriving Repr, DecidableEq

/-- Python truthiness of the `attributes` argument: `None` and `{}` are falsy. -/
def attrsTruthy : Option (List (String × String)) → Bool
  | none => false
  | some l => !l.isEmpty

/-- The (unformatted) message of the `ValueError` raised by
`PubsubMessage.__init__` — the source passes the `%r` template and the two
offending values as separate `ValueError` arguments, so the template is the
message text. -/
def eitherDataMsg : String := "Either data (%r) or attributes (%r) must be set."

/-- `PubsubMessage.__init__`: raises `ValueError` when `data is None and not
attributes`, otherwise stores both fields unchanged. -/
def mkPubsubMessage (data : Option Bytes) (attributes : Option (List (String × String))) :
    Except PyErr PubsubMessage :=
  if data = none ∧ attrsTruthy attributes = false then
    .error (.valueError eitherDataMsg)
  else
    .ok ⟨data, attributes⟩

/-- Little-endian base-128 varint encoding, fuel-driven so that it reduces
inside the kernel; `fuel ≥ n` always suffices because the argument at least
halves each step (the fallback branch is unreachable). -/
def varintEncAux : Nat → Nat → List Nat
  | 0, n => [n % 128]
  | fuel + 1, n => if n < 128 then [n] else (n % 128 + 128) :: varintEncAux fuel (n / 128)

/-- Little-endian base-128 varint encoding of a natural number
(protobuf wire format). -/
def varintEnc (n : Nat) : List Nat := varintEncAux (n + 1) n

/-- Bytes of a string (claims only use ASCII, where UTF-8 bytes are the
code points). -/
def strBytes (s : String) : Bytes := s.data.map Char.toNat

/-- A length-delimited protobuf field: tag byte, varint length, payload. -/
def lenDelim (tag : Nat) (payload : Bytes) : Bytes :=
  tag :: varintEnc payload.length ++ payload

/-- Wire encoding of one `attributes` map entry (an embedded message with
string key = field 1, string value = field 2; default-valued fields omitted),
wrapped as one occurrence of field 2 of `PubsubMessage`. -/
def serializeEntry (kv : String × String) : Bytes :=
  let body :=
    (if kv.1 = "" then [] else lenDelim 10 (strBytes kv.1)) ++
    (if kv.2 = "" then [] else lenDelim 18 (strBytes kv.2))
  lenDelim 18 body

/-- `SerializeToString` of the proto message built by `_to_proto_str`:
field 1 (`data`, omitted when empty, the proto3 default) followed by one
field-2 entry per attribute in iteration order. -/
def serializeProto (d : Bytes) (attrs : List (String × String)) : Bytes :=
  (if d = [] then [] else lenDelim 10 d) ++ attrs.flatMap serializeEntry

/-- The `TypeError` text of the protobuf library when a scalar field is
assigned `None` (simplified rendering). -/
def protoNoneDataMsg : String := "None has type NoneType, but expected one of: bytes"

/-- The `TypeError` text when iterating `None` as a dictionary. -/
def iterNoneAttrsMsg : String := "NoneType object is not iterable"

/-- `PubsubMessage._to_proto_str`: builds the proto message by assigning
`msg.data = self.data` (raising `TypeError` when `data` is `None` — proto3
scalar assignment rejects `None`) and then copying each attribute, and
serializes it. -/
def PubsubMessage.to_proto_str (m : PubsubMessage) : Except PyErr Bytes :=
  match m.data with
  | none => .error (.typeError protoNoneDataMsg)
  | some d =>
    match m.attributes with
    | none => .error (.typeError iterNoneAttrsMsg)
    | some attrs => .ok (serializeProto d attrs)

/-! ## SourceConfig / SinkConfig and the read/write transforms -/

/-- Message of the `ValueError` raised when neither topic nor subscription is
given. -/
def missingAddrMsg : String := "Either a topic or subscription must be provided."

/-- Message of the `ValueError` raised when both topic and subscription are
given. -/
def conflictAddrMsg : String := "Only one of topic or subscription should be provided."

/-- `_PubSubSource` state after a successful `__init__`. -/
structure PubSubSource where
  full_topic : Option String
  full_subscription : Option String
  topic_name : Option String
  subscription_name : Option String
  id_label : Option String
  with_attributes : Bool
  timestamp_attribute : Option String
  project : Option String
deriving Repr, DecidableEq

/-- `_PubSubSource.__init__`: stores the raw arguments, validates that
exactly one of `topic`/`subscription` is truthy (Python truthiness: `None`
and `''` are both falsy), and populates `project` plus the matching
`*_name` field via the parser, whose failures propagate. -/
def pubSubSourceInit (topic subscription id_label : Option String)
    (with_attributes : Bool) (timestamp_attribute : Option String) :
    Except PyErr PubSubSource :=
  if !(truthy topic || truthy subscription) then
    .error (.valueError missingAddrMsg)
  else if truthy topic && truthy subscription then
    .error (.valueError conflictAddrMsg)
  else if truthy topic then
    match parse_topic (topic.getD "") with
    | .error e => .error e
    | .ok pt =>
      .ok { full_topic := topic, full_subscription := subscription,
            topic_name := some pt.2, subscription_name := none,
            id_label := id_label, with_attributes := with_attributes,
            timestamp_attribute := timestamp_attribute, project := some pt.1 }
  else
    match parse_subscription (subscription.getD "") with
    | .error e => .error e
    | .ok ps =>
      .ok { full_topic := topic, full_subscription := subscription,
            topic_name := none, subscription_name := some ps.2,
            id_label := id_label, with_attributes := with_attributes,
            timestamp_attribute := timestamp_attribute, project := some ps.1 }

/-- The `ReadFromPubSub` transform: the `with_attributes` flag plus its
validated `_PubSubSource`. -/
structure ReadFromPubSub where
  with_attributes : Bool
  source : PubSubSource
deriving Repr, DecidableEq

/-- `ReadFromPubSub.__init__`: builds the `_PubSubSource` (propagating its
validation failures). -/
def mkReadFromPubSub (topic subscription id_label : Option String)
    (with_attributes : Bool) (timestamp_attribute : Option String) :
    Except PyErr ReadFromPubSub :=
  match pubSubSourceInit topic subscription id_label with_attributes timestamp_attribute with
  | .error e => .error e
  | .ok src => .ok { with_attributes := with_attributes, source := src }

/-- The portable `PubSubReadPayload` proto: proto3 string fields, so `None`
keyword arguments are skipped and unset fields read back as `""`. -/
structure PubSubReadPayload where
  topic : String
  subscription : String
  timestamp_attribute : String
  id_attribute : String
  with_attributes : Bool
  serialized_attribute_fn : String
deriving Repr, DecidableEq

/-- Reading an optional string out of a proto3 string field it was assigned
to: `None` was skipped at construction, so the field holds `""`. -/
def optStr : Option String → String := fun o => o.getD ""

/-- `ReadFromPubSub._pubsub_read_payload`: exports the configuration into the
portable payload. -/
def pubsubReadPayload (r : ReadFromPubSub) : PubSubReadPayload :=
  { topic := optStr r.source.full_topic,
    subscription := optStr r.source.full_subscription,
    timestamp_attribute := optStr r.source.timestamp_attribute,
    id_attribute := optStr r.source.id_label,
    with_attributes := r.with_attributes,
    serialized_attribute_fn := "" }

/-- `ReadFromPubSub.from_runner_api_parameter`: reconstructs a transform from
a portable payload (all payload fields are plain strings, possibly empty). -/
def readFromRunnerApi (p : PubSubReadPayload) : Except PyErr ReadFromPubSub :=
  mkReadFromPubSub (some p.topic) (some p.subscription) (some p.id_attribute)
    p.with_attributes (some p.timestamp_attribute)

/-- `_PubSubSink` state after a successful `__init__` (always parses its
topic). -/
structure PubSubSink where
  full_topic : String
  id_label : Option String
  with_attributes : Bool
  timestamp_attribute : Option String
  project : String
  topic_name : String
deriving Repr, DecidableEq

/-- `_PubSubSink.__init__`. -/
def pubSubSinkInit (topic : String) (id_label : Option String)
    (with_attributes : Bool) (timestamp_attribute : Option String) :
    Except PyErr PubSubSink :=
  match parse_topic topic with
  | .error e => .error e
  | .ok pt =>
    .ok { full_topic := topic, id_label := id_label,
          with_attributes := with_attributes,
          timestamp_attribute := timestamp_attribute,
          project := pt.1, topic_name := pt.2 }

/-- The `WriteToPubSub` transform. -/
structure WriteToPubSub where
  with_attributes : Bool
  id_label : Option String
  timestamp_attribute : Option String
  sink : PubSubSink
deriving Repr, DecidableEq

/-- `WriteToPubSub.__init__`. -/
def mkWriteToPubSub (topic : String) (with_attributes : Bool)
    (id_label timestamp_attribute : Option String) : Except PyErr WriteToPubSub :=
  match pubSubSinkInit topic id_label with_attributes timestamp_attribute with
  | .error e => .error e
  | .ok sink =>
    .ok { with_attributes := with_attributes, id_label := id_label,
          timestamp_attribute := timestamp_attribute, sink := sink }

/-- A pipeline element as seen by `WriteToPubSub`: raw bytes, a
`PubsubMessage`, or a string — the runtime type tag matters for the
`isinstance` check. -/
inductive Element where
  | bytes (b : Bytes) : Element
  | message (m : PubsubMessage) : Element
  | str (s : String) : Element
deriving Repr, DecidableEq

/-- Rendering of `type(element)` for the `TypeError` message. -/
def pyTypeOf : Element → String
  | .bytes _ => "<class \x27bytes\x27>"
  | .message _ => "<class \x27PubsubMessage\x27>"
  | .str _ => "<class \x27str\x27>"

/-- Simplified Python `repr` of an element for the `TypeError` message. -/
def pyReprElem : Element → String
  | .bytes b => "b" ++ pyRepr (String.intercalate " " (b.map toString))
  | .message _ => "PubsubMessage(...)"
  | .str s => pyRepr s

/-- Does the `isinstance(element, PubsubMessage)` check pass? -/
def isMessage : Element → Bool
  | .message _ => true
  | _ => false

/-- The `TypeError` message of `WriteToPubSub.to_proto_str`, naming the
offending element's runtime type and value. -/
def typeMismatchMsg (e : Element) : String :=
  "Unexpected element. Type: " ++ pyTypeOf e ++
    " (expected: PubsubMessage), value: " ++ pyReprElem e

/-- `WriteToPubSub.to_proto_str` (static): rejects non-`PubsubMessage`
elements with a `TypeError` naming their type and value, and encodes
messages via `PubsubMessage._to_proto_str`. -/
def WriteToPubSub.to_proto_str : Element → Except PyErr Bytes
  | .message m => m.to_proto_str
  | e => .error (.typeError (typeMismatchMsg e))

/-- `WriteToPubSub.expand` observed on a finite list of input elements: with
attributes every element is mapped through `to_proto_str` (per-element
failures propagate); without, elements pass through unchanged as bytes. -/
def writeExpand (w : WriteToPubSub) (input : List Element) : Except PyErr (List Element) :=
  if w.with_attributes then
    match input.mapM WriteToPubSub.to_proto_str with
    | .error e => .error e
    | .ok bs => .ok (bs.map Element.bytes)
  else
    .ok input

/-! ## MultipleReadFromPubSub (MultiSourceFanOut) -/

/-- A Python `Optional[Union[List[str], str]]` argument of
`MultipleReadFromPubSub.__init__`. -/
inductive ScalarOrList where
  | noneV : ScalarOrList
  | scalar (s : String) : ScalarOrList
  | list (xs : List String) : ScalarOrList
deriving Repr, DecidableEq

/-- The `ValueError` message for a per-source parameter list whose length
differs from the number of sources, reporting both lengths. -/
def lenMismatchMsg (pname : String) (got n : Nat) : String :=
  "Length of \"" ++ pname ++ "\" (" ++ toString got ++
    ") is not the same as length of \"sources\" (" ++ toString n ++ ")"

/-- The scalar-or-list resolution block of `MultipleReadFromPubSub.__init__`:
a string or `None` is broadcast to all `n` sources (`[v] * n`); a list must
have length `n`, else `ValueError` reporting both lengths. -/
def resolveMultiParam (pname : String) (v : ScalarOrList) (n : Nat) :
    Except PyErr (List (Option String)) :=
  match v with
  | .noneV => .ok (List.replicate n none)
  | .scalar s => .ok (List.replicate n (some s))
  | .list xs =>
    if xs.length ≠ n then .error (.valueError (lenMismatchMsg pname xs.length n))
    else .ok (xs.map some)

/-- Does a source string match `TOPIC_REGEXP` or `SUBSCRIPTION_REGEXP`
(the per-source validation of `MultipleReadFromPubSub.__init__`)? -/
def sourcePatternOk (s : String) : Bool :=
  (matchTopicL s.data).isSome || (matchSubscriptionL s.data).isSome

/-- The `ValueError` message for a source matching neither pattern. -/
def invalidSourceMsg (s : String) : String :=
  "PubSub source must be in the form \"projects/<project>/topics/<topic>\" or \"projects/<project>/subscription/<subscription>\" (got "
    ++ pyRepr s ++ ")."

/-- The `ValueError` message when a generic `topic` keyword argument is
supplied. -/
def kwTopicMsg (v : String) : String :=
  "Topics and subscriptions should be in \"source_list\". Found topic " ++ v

/-- The `ValueError` message when a generic `subscription` keyword argument
is supplied. -/
def kwSubscriptionMsg (v : String) : String :=
  "Subscriptions and topics should be in \"source_list\". Found subscription " ++ v

/-- `MultipleReadFromPubSub` state after a successful `__init__`: the raw
source list, flags, resolved per-source parameter lists and remaining keyword
arguments. -/
structure MultipleReadFromPubSub where
  source_list : List String
  with_context : Bool
  with_attributes : Bool
  id_label : List (Option String)
  timestamp_attribute : List (Option String)
  kwargs : List (String × String)
deriving Repr, DecidableEq

/-- `MultipleReadFromPubSub.__init__` in source order: resolve `id_label`,
resolve `timestamp_attribute`, check every source against the topic or
subscription pattern (first offender reported), then reject generic
`topic`/`subscription` keyword arguments. -/
def multiInit (source_list : List String) (with_context : Bool)
    (id_label : ScalarOrList) (with_attributes : Bool)
    (timestamp_attribute : ScalarOrList) (kwargs : List (String × String)) :
    Except PyErr MultipleReadFromPubSub :=
  match resolveMultiParam "id_label" id_label source_list.length with
  | .error e => .error e
  | .ok idl =>
    match resolveMultiParam "timestamp_attribute" timestamp_attribute source_list.length with
    | .error e => .error e
    | .ok tsa =>
      match source_list.find? (fun s => !sourcePatternOk s) with
      | some bad => .error (.valueError (invalidSourceMsg bad))
      | none =>
        match kwargs.find? (fun kv => kv.1 = "topic") with
        | some kv => .error (.valueError (kwTopicMsg kv.2))
        | none =>
          match kwargs.find? (fun kv => kv.1 = "subscription") with
          | some kv => .error (.valueError (kwSubscriptionMsg kv.2))
          | none =>
            .ok { source_list := source_list, with_context := with_context,
                  with_attributes := with_attributes, id_label := idl,
                  timestamp_attribute := tsa, kwargs := kwargs }

/-- Python `str.split(sep)` for a single separator character (empty pieces
kept), on character lists. -/
def splitOnCharL (sep : Char) : List Char → List (List Char)
  | [] => [[]]
  | c :: cs =>
    let r := splitOnCharL sep cs
    if c = sep then [] :: r
    else
      match r with
      | [] => [[c]]
      | h :: t => (c :: h) :: t

/-- `source.split('/')[2]` of `expand`: decides topic vs. subscription. -/
def sourceType (s : String) : String := ⟨(splitOnCharL '/' s.data).getD 2 []⟩

/-- The `TypeError` a leftover keyword argument would cause when forwarded to
`ReadFromPubSub.__init__` (which has no matching parameter). -/
def unexpectedKwMsg : String := "got an unexpected keyword argument"

/-- The loop body of `MultipleReadFromPubSub.expand` for index `i`: builds
the constituent `ReadFromPubSub` from `source_list[i]`, `id_label[i]`,
`timestamp_attribute[i]` and the shared `with_attributes` flag, as a topic
or subscription read according to `split('/')[2]`. -/
def buildReadForSource (m : MultipleReadFromPubSub) (i : Nat) : Except PyErr ReadFromPubSub :=
  if m.kwargs ≠ [] then .error (.typeError unexpectedKwMsg)
  else
    let source := m.source_list.getD i ""
    if sourceType source = "topics" then
      mkReadFromPubSub (some source) none (m.id_label.getD i none)
        m.with_attributes (m.timestamp_attribute.getD i none)
    else
      mkReadFromPubSub none (some source) (m.id_label.getD i none)
        m.with_attributes (m.timestamp_attribute.getD i none)

/-- The value the loop variable `source` of `expand` holds once the loop over
`source_list` has finished: its last element. -/
def loopVarFinal (sources : List String) : String := (sources.getLast?).getD ""

/-- `MultipleReadFromPubSub.expand` with `with_context = True`, observed on
finite per-source element streams (`delivered i` is the list of elements the
`i`-th constituent read produces).  Each constituent `ReadFromPubSub` is
constructed as in the loop; the context step is
`Map(lambda message: (source, message))`, whose body reads the free variable
`source` — the loop variable, one shared binding per `expand` call — only
when an element is processed, which happens after the loop has completed, so
every closure observes the final value of `source` (Python late binding).
The flattened union concatenates the per-source outputs in list order. -/
def multiExpandWithContext {α : Type} (m : MultipleReadFromPubSub)
    (delivered : Nat → List α) : Except PyErr (List (String × α)) :=
  match (List.range m.source_list.length).mapM (buildReadForSource m) with
  | .error e => .error e
  | .ok _ =>
    .ok ((List.range m.source_list.length).flatMap fun i =>
      (delivered i).map fun e => (loopVarFinal m.source_list, e))

/-! ## Theorems -/

example : parse_topic "projects/my-project-1/topics/my-topic" = .ok ("my-project-1", "my-topic") := by decide

example : parse_topic "projects/ab/topics/t" = .error (.valueError (invalidProjMsg "ab")) := by decide

example : parse_subscription "projects/proj-aaaa/subscriptions/s" = .ok ("proj-aaaa", "s") := by decide

/-- C8: `PubsubMessage` construction fails (with the usage `ValueError`)
exactly when `data` is `None` and the attribute mapping is empty or absent;
in particular it fails for `data=None, attributes={}` and for
`data=None, attributes=None`, while `data=b"", attributes={}` and
`data=None, attributes={"k":"v"}` both succeed. -/
theorem c8_message_invariant :
    (mkPubsubMessage none (some []) = .error (.valueError eitherDataMsg)) ∧
    (mkPubsubMessage none none = .error (.valueError eitherDataMsg)) ∧
    (mkPubsubMessage (some []) (some []) = .ok ⟨some [], some []⟩) ∧
    (mkPubsubMessage none (some [("k", "v")]) = .ok ⟨none, some [("k", "v")]⟩) ∧
    (∀ d a, (∃ e, mkPubsubMessage d a = .error e) ↔ (d = none ∧ attrsTruthy a = false)) := by
  refine ⟨by decide, by decide, by decide, by decide, fun d a => ?_⟩
  by_cases h : d = none ∧ attrsTruthy a = false
  · simp [mkPubsubMessage, h]
  · simp [mkPubsubMessage, h]

/-- C1 (code bug): a `PubsubMessage` with `data=None` and a non-empty
attribute mapping is valid per the constructor, yet `_to_proto_str` fails on
it with a `TypeError` (the proto3 `data` field rejects `None`), so the
encoder is not defined on every valid message and the round-trip law fails
for such messages.  For contrast, a message with present (even empty) data
encodes fine. -/
theorem c1_encode_undefined_on_none_data :
    (mkPubsubMessage none (some [("k", "v")]) = .ok ⟨none, some [("k", "v")]⟩) ∧
    (PubsubMessage.to_proto_str ⟨none, some [("k", "v")]⟩
      = .error (.typeError protoNoneDataMsg)) ∧
    (PubsubMessage.to_proto_str ⟨some [], some [("k", "v")]⟩
      = .ok (serializeProto [] [("k", "v")])) := by
  exact ⟨by decide, by decide, by decide⟩

/-- C2 (code bug): `MultipleReadFromPubSub` over two distinct topic sources
with `with_context=True`, one element delivered by each constituent read,
emits two pairs whose first components are BOTH the second (last) source —
the context lambda closes over the loop variable `source`, which has its
final value by the time elements flow — instead of pairing each element with
its originating source. -/
theorem c2_fanout_context_uses_last_source :
    (multiInit ["projects/proj-aaaa/topics/a", "projects/proj-aaaa/topics/b"]
        true .noneV false .noneV []).bind
      (fun m => multiExpandWithContext m (fun i => if i = 0 then [[1]] else [[2]]))
    = .ok [("projects/proj-aaaa/topics/b", ([1] : Bytes)),
           ("projects/proj-aaaa/topics/b", [2])] := by decide

/-- C3 (counterexample): the project ids `"abcdef-"` (ends in `-`) and 70
consecutive `a`s (length > 63) both fail the specification's project-id
grammar, yet `parse_topic` accepts them instead of failing with the
invalid-project error — `PROJECT_ID_REGEXP` is applied with `re.match`,
which anchors only at the start. -/
theorem c3_counterexample_dash_and_long_ids_accepted :
    (specProjectIdFull "abcdef-".data = false ∧
      parse_topic "projects/abcdef-/topics/t" = .ok ("abcdef-", "t")) ∧
    (specProjectIdFull (List.replicate 70 'a') = false ∧
      parse_topic ⟨"projects/".data ++ List.replicate 70 'a' ++ "/topics/t".data⟩
        = .ok (⟨List.replicate 70 'a'⟩, "t")) := by
  exact ⟨⟨by decide, by decide⟩, ⟨by decide, by decide⟩⟩

/-- C4 (counterexample): the string `"projects/proj-aaaa/topics/a\nb"`
matches the topic pattern with a grammar-valid project id, but `parse_topic`
captures only `"a"` as the name — `.` in `(.+)` does not match a newline —
so re-joining the returned pair does not reproduce the input string. -/
theorem c4_counterexample_newline_truncates_name :
    specProjectIdFull "proj-aaaa".data = true ∧
    parse_topic "projects/proj-aaaa/topics/a\nb" = .ok ("proj-aaaa", "a") ∧
    "projects/" ++ "proj-aaaa" ++ "/topics/" ++ "a" ≠ "projects/proj-aaaa/topics/a\nb" := by
  exact ⟨by decide, by decide, by decide⟩

/-! ### Parser lemmas -/

theorem stripLit_append (pre rest : List Char) : stripLit pre (pre ++ rest) = some rest := by
  induction pre with
  | nil => rfl
  | cons a as ih => simp [stripLit, ih]

theorem takeWhile_append_stop {q : Char → Bool} (xs : List Char) (y : Char) (ys : List Char)
    (hxs : ∀ c ∈ xs, q c = true) (hy : q y = false) :
    (xs ++ y :: ys).takeWhile q = xs := by
  induction xs with
  | nil => simp [List.takeWhile_cons, hy]
  | cons a as ih =>
    have ha := hxs a (by simp)
    simp only [List.cons_append, List.takeWhile_cons, ha, if_true]
    rw [ih (fun c hc => hxs c (by simp [hc]))]

theorem takeWhile_eq_self_of_all {q : Char → Bool} (xs : List Char)
    (hxs : ∀ c ∈ xs, q c = true) : xs.takeWhile q = xs := by
  induction xs with
  | nil => rfl
  | cons a as ih =>
    simp only [List.takeWhile_cons, hxs a (by simp), if_true]
    rw [ih (fun c hc => hxs c (by simp [hc]))]

theorem group1_append (p rest : List Char) (hps : ∀ c ∈ p, c ≠ '/') :
    group1 (p ++ '/' :: rest) = p := by
  unfold group1
  exact takeWhile_append_stop p '/' rest (fun c hc => by simpa using hps c hc) (by simp)

/-- The shape of a successful `matchResourceL` on a well-formed input:
group 1 is the `/`-free project id, group 2 the name truncated at the first
newline. -/
theorem matchResourceL_append (midTail p name : List Char)
    (hp : p ≠ []) (hps : ∀ c ∈ p, c ≠ '/')
    (hn : group2 name ≠ []) :
    matchResourceL ('/' :: midTail) (projectsLit ++ (p ++ '/' :: (midTail ++ name)))
      = some (p, group2 name) := by
  have h1 := stripLit_append projectsLit (p ++ '/' :: (midTail ++ name))
  have h2 : group1 (p ++ '/' :: (midTail ++ name)) = p := group1_append _ _ hps
  have h3 : stripLit ('/' :: midTail) ('/' :: (midTail ++ name)) = some name := by
    simpa [stripLit] using stripLit_append midTail name
  simp only [matchResourceL, h1, h2, if_neg hp, List.drop_left, h3, if_neg hn]

/-- The code's start-anchored project-id check accepts every id the
specification's full grammar accepts. -/
theorem specFull_imp_codeMatch (p : List Char) (h : specProjectIdFull p = true) :
    projectIdPrefixMatchL p = true := by
  match p with
  | [] => simp [specProjectIdFull] at h
  | c :: rest =>
    rcases List.eq_nil_or_concat rest with hr | ⟨l, a, rfl⟩
    · subst hr; simp [specProjectIdFull] at h
    · simp only [List.concat_eq_append] at h ⊢
      simp only [specProjectIdFull, List.getLast?_concat, List.dropLast_concat] at h
      simp only [Bool.and_eq_true, decide_eq_true_eq] at h
      obtain ⟨⟨⟨⟨hc, ha⟩, hmid⟩, hlen5⟩, hlen62⟩ := h
      simp only [List.length_append, List.length_cons, List.length_nil] at hlen5 hlen62
      simp only [projectIdPrefixMatchL, hc, Bool.true_and]
      apply List.any_eq_true.mpr
      refine ⟨l.length - 4, List.mem_range.mpr (by omega), ?_⟩
      have hk : l.length - 4 + 4 = l.length := by omega
      rw [hk]
      simp only [matchAfterK, List.drop_left, List.take_left]
      simp [ha, hmid]

theorem matchTopicL_append (p name : List Char)
    (hp : p ≠ []) (hps : ∀ c ∈ p, c ≠ '/') (hn : group2 name ≠ []) :
    matchTopicL (projectsLit ++ p ++ "/topics/".data ++ name) = some (p, group2 name) := by
  have hd : ("/topics/".data : List Char) = '/' :: "topics/".data := by decide
  have hsh : projectsLit ++ p ++ "/topics/".data ++ name
      = projectsLit ++ (p ++ '/' :: ("topics/".data ++ name)) := by
    rw [hd]; simp [List.append_assoc]
  rw [matchTopicL, hsh, hd]
  exact matchResourceL_append _ p name hp hps hn

theorem matchSubscriptionL_append (p name : List Char)
    (hp : p ≠ []) (hps : ∀ c ∈ p, c ≠ '/') (hn : group2 name ≠ []) :
    matchSubscriptionL (projectsLit ++ p ++ "/subscriptions/".data ++ name)
      = some (p, group2 name) := by
  have hd : ("/subscriptions/".data : List Char) = '/' :: "subscriptions/".data := by decide
  have hsh : projectsLit ++ p ++ "/subscriptions/".data ++ name
      = projectsLit ++ (p ++ '/' :: ("subscriptions/".data ++ name)) := by
    rw [hd]; simp [List.append_assoc]
  rw [matchSubscriptionL, hsh, hd]
  exact matchResourceL_append _ p name hp hps hn

theorem parse_topic_eq_of_match (s : String) (p n : List Char)
    (h : matchTopicL s.data = some (p, n)) :
    parse_topic s = if projectIdPrefixMatchL p then .ok (⟨p⟩, ⟨n⟩)
      else .error (.valueError (invalidProjMsg ⟨p⟩)) := by
  unfold parse_topic
  rw [h]

theorem parse_subscription_eq_of_match (s : String) (p n : List Char)
    (h : matchSubscriptionL s.data = some (p, n)) :
    parse_subscription s = if projectIdPrefixMatchL p then .ok (⟨p⟩, ⟨n⟩)
      else .error (.valueError (invalidProjMsg ⟨p⟩)) := by
  unfold parse_subscription
  rw [h]

theorem parse_topic_append (p name : List Char)
    (hp : p ≠ []) (hps : ∀ c ∈ p, c ≠ '/') (hn : group2 name ≠ []) :
    parse_topic ⟨projectsLit ++ p ++ "/topics/".data ++ name⟩
      = if projectIdPrefixMatchL p then .ok (⟨p⟩, ⟨group2 name⟩)
        else .error (.valueError (invalidProjMsg ⟨p⟩)) :=
  parse_topic_eq_of_match _ p (group2 name) (matchTopicL_append p name hp hps hn)

theorem parse_subscription_append (p name : List Char)
    (hp : p ≠ []) (hps : ∀ c ∈ p, c ≠ '/') (hn : group2 name ≠ []) :
    parse_subscription ⟨projectsLit ++ p ++ "/subscriptions/".data ++ name⟩
      = if projectIdPrefixMatchL p then .ok (⟨p⟩, ⟨group2 name⟩)
        else .error (.valueError (invalidProjMsg ⟨p⟩)) :=
  parse_subscription_eq_of_match _ p (group2 name) (matchSubscriptionL_append p name hp hps hn)

/-- C3 (amended): for strings of the topic/subscription form, the parser
fails with the invalid-project error precisely when the embedded project id
has NO prefix matching `[a-z][-a-z0-9:.]{4,61}[a-z0-9]` — the check is
`re.match`, anchored at the start only, so ids failing the full (anchored)
grammar are still accepted whenever such a prefix exists; grammar-valid ids
are never rejected. -/
theorem c3_project_id_check_is_anchored_at_start_only :
    (∀ p name : List Char, p ≠ [] → (∀ c ∈ p, c ≠ '/') → group2 name ≠ [] →
      parse_topic ⟨projectsLit ++ p ++ "/topics/".data ++ name⟩
        = (if projectIdPrefixMatchL p then .ok (⟨p⟩, ⟨group2 name⟩)
           else .error (.valueError (invalidProjMsg ⟨p⟩))) ∧
      parse_subscription ⟨projectsLit ++ p ++ "/subscriptions/".data ++ name⟩
        = (if projectIdPrefixMatchL p then .ok (⟨p⟩, ⟨group2 name⟩)
           else .error (.valueError (invalidProjMsg ⟨p⟩)))) ∧
    (∀ p : List Char, specProjectIdFull p = true → projectIdPrefixMatchL p = true) := by
  refine ⟨fun p name hp hps hn => ⟨?_, ?_⟩, specFull_imp_codeMatch⟩
  · exact parse_topic_append p name hp hps hn
  · exact parse_subscription_append p name hp hps hn

/-- Witness for C3: the amended statement evaluated at concrete inputs — a
grammar-valid project id parses, and an id with no grammar prefix (`"pr"`)
is rejected with the invalid-project error. -/
theorem c3_project_id_check_witness :
    parse_topic ⟨projectsLit ++ "proj-aaaa".data ++ "/topics/".data ++ "t".data⟩
      = .ok ("proj-aaaa", "t") ∧
    parse_subscription ⟨projectsLit ++ "pr".data ++ "/subscriptions/".data ++ "s".data⟩
      = .error (.valueError (invalidProjMsg "pr")) ∧
    projectIdPrefixMatchL "proj-aaaa".data = true := by
  have h := c3_project_id_check_is_anchored_at_start_only
  have h1 := h.1 "proj-aaaa".data "t".data (by decide) (by decide) (by decide)
  have h2 := h.1 "pr".data "s".data (by decide) (by decide) (by decide)
  have h3 := h.2 "proj-aaaa".data (by decide)
  refine ⟨?_, ?_, h3⟩
  · rw [h1.1]; decide
  · rw [h2.2]; decide

/-- C4 (amended): for every string of the form
`projects/<p>/topics/<name>` with a grammar-valid, `/`-free project id and a
non-empty name containing no newline, `parse_topic` returns `(p, name)` and
re-joining reproduces the input exactly; for every string the pattern does
not match, it fails with the format `ValueError`.  (When the name contains a
newline the capture stops before it — the amendment restricts the re-join
law to newline-free names.) -/
theorem c4_parse_topic_rejoin_on_newline_free_names :
    (∀ p name : List Char, p ≠ [] → (∀ c ∈ p, c ≠ '/') → specProjectIdFull p = true →
      name ≠ [] → (∀ c ∈ name, c ≠ '\n') →
      parse_topic ⟨projectsLit ++ p ++ "/topics/".data ++ name⟩ = .ok (⟨p⟩, ⟨name⟩) ∧
      "projects/" ++ (⟨p⟩ : String) ++ "/topics/" ++ (⟨name⟩ : String)
        = (⟨projectsLit ++ p ++ "/topics/".data ++ name⟩ : String)) ∧
    (∀ s : String, matchTopicL s.data = none →
      parse_topic s = .error (.valueError (topicFmtMsg s))) := by
  constructor
  · intro p name hp hps hfull hne hnl
    have hg2 : group2 name = name :=
      takeWhile_eq_self_of_all name (fun c hc => by simpa using hnl c hc)
    have hn : group2 name ≠ [] := by rw [hg2]; exact hne
    have hmatch := specFull_imp_codeMatch p hfull
    constructor
    · rw [parse_topic_append p name hp hps hn, if_pos hmatch, hg2]
    · rfl
  · intro s h
    unfold parse_topic
    rw [h]

/-- Witness for C4: the amended statement evaluated at a concrete well-formed
topic string and at a concrete non-matching string. -/
theorem c4_parse_topic_rejoin_witness :
    parse_topic ⟨projectsLit ++ "proj-aaaa".data ++ "/topics/".data ++ "my-topic".data⟩
      = .ok ("proj-aaaa", "my-topic") ∧
    "projects/" ++ ("proj-aaaa" : String) ++ "/topics/" ++ ("my-topic" : String)
      = (⟨projectsLit ++ "proj-aaaa".data ++ "/topics/".data ++ "my-topic".data⟩ : String) ∧
    parse_topic "nonsense" = .error (.valueError (topicFmtMsg "nonsense")) := by
  have h := c4_parse_topic_rejoin_on_newline_free_names
  have h1 := h.1 "proj-aaaa".data "my-topic".data
    (by decide) (by decide) (by decide) (by decide) (by decide)
  have h2 := h.2 "nonsense" (by decide)
  refine ⟨?_, ?_, h2⟩
  · rw [h1.1]
  · exact h1.2

theorem truthy_empty : truthy (some "") = false := by decide

theorem truthy_none : truthy none = false := rfl

/-- C5: the read-side source constructor fails with the missing-address
`ValueError` when neither topic nor subscription is present, with the
conflicting-address `ValueError` when both are (present = Python-truthy, cf.
the empty-string handling of C10); parser failures propagate unchanged; and
on success exactly one of `(project, topic_name)` or
`(project, subscription_name)` is populated, with the parser's output. -/
theorem c5_source_config_validation :
    ∀ (t s il : Option String) (wa : Bool) (ta : Option String),
    (truthy t = false → truthy s = false →
      pubSubSourceInit t s il wa ta = .error (.valueError missingAddrMsg)) ∧
    (truthy t = true → truthy s = true →
      pubSubSourceInit t s il wa ta = .error (.valueError conflictAddrMsg)) ∧
    (∀ e, truthy t = true → truthy s = false → parse_topic (t.getD "") = .error e →
      pubSubSourceInit t s il wa ta = .error e) ∧
    (∀ e, truthy t = false → truthy s = true → parse_subscription (s.getD "") = .error e →
      pubSubSourceInit t s il wa ta = .error e) ∧
    (∀ src, pubSubSourceInit t s il wa ta = .ok src →
      (truthy t = true ∧ ∃ pt, parse_topic (t.getD "") = .ok pt ∧
        src.project = some pt.1 ∧ src.topic_name = some pt.2 ∧
        src.subscription_name = none) ∨
      (truthy s = true ∧ ∃ ps, parse_subscription (s.getD "") = .ok ps ∧
        src.project = some ps.1 ∧ src.subscription_name = some ps.2 ∧
        src.topic_name = none)) := by
  intro t s il wa ta
  refine ⟨?_, ?_, ?_, ?_, ?_⟩
  · intro ht hs; simp [pubSubSourceInit, ht, hs]
  · intro ht hs; simp [pubSubSourceInit, ht, hs]
  · intro e ht hs hp; simp [pubSubSourceInit, ht, hs, hp]
  · intro e ht hs hp; simp [pubSubSourceInit, ht, hs, hp]
  · intro src h
    by_cases ht : truthy t = true <;> by_cases hs : truthy s = true
    · simp [pubSubSourceInit, ht, hs] at h
    · rw [Bool.not_eq_true] at hs
      left
      refine ⟨ht, ?_⟩
      simp only [pubSubSourceInit, ht, hs] at h
      simp only [Bool.or_false, Bool.and_false, Bool.not_true, Bool.false_eq_true,
        if_false, if_true, Bool.true_eq_false] at h
      cases hp : parse_topic (t.getD "") with
      | error e => rw [hp] at h; simp at h
      | ok pt =>
        rw [hp] at h
        simp only [Except.ok.injEq] at h
        exact ⟨pt, rfl, by rw [← h], by rw [← h], by rw [← h]⟩
    · rw [Bool.not_eq_true] at ht
      right
      refine ⟨hs, ?_⟩
      simp only [pubSubSourceInit, ht, hs] at h
      simp only [Bool.false_or, Bool.false_and, Bool.not_true, Bool.false_eq_true,
        if_false, if_true, Bool.true_eq_false] at h
      cases hp : parse_subscription (s.getD "") with
      | error e => rw [hp] at h; simp at h
      | ok ps =>
        rw [hp] at h
        simp only [Except.ok.injEq] at h
        exact ⟨ps, rfl, by rw [← h], by rw [← h], by rw [← h]⟩
    · rw [Bool.not_eq_true] at ht hs
      simp [pubSubSourceInit, ht, hs] at h

/-- Witness for C5: the four failure modes and the success shape evaluated on
concrete configurations. -/
theorem c5_source_config_validation_witness :
    pubSubSourceInit none none none false none
      = .error (.valueError missingAddrMsg) ∧
    pubSubSourceInit (some "projects/proj-aaaa/topics/t")
        (some "projects/proj-aaaa/subscriptions/s") none false none
      = .error (.valueError conflictAddrMsg) ∧
    pubSubSourceInit (some "bad-topic") none none false none
      = .error (.valueError (topicFmtMsg "bad-topic")) := by
  have h1 := (c5_source_config_validation none none none false none).1 rfl rfl
  have h2 := ((c5_source_config_validation (some "projects/proj-aaaa/topics/t")
    (some "projects/proj-aaaa/subscriptions/s") none false none).2.1) (by decide) (by decide)
  have h3 := ((c5_source_config_validation (some "bad-topic") none none false none).2.2.1)
    (.valueError (topicFmtMsg "bad-topic")) (by decide) rfl (by decide)
  exact ⟨h1, h2, h3⟩

/-- C10: the constructor tests its addresses with Python truthiness, so an
empty-string topic or subscription behaves as an absent one: with both empty
(or both `None`) it fails with the missing-address error (not a format
error), and with `topic=""` the outcome is identical — same error, or same
resulting source up to the stored raw `full_topic` field — to not supplying
a topic at all (no conflict error; only the subscription is parsed). -/
theorem c10_empty_string_address_is_absent :
    (∀ il wa ta,
      pubSubSourceInit (some "") (some "") il wa ta
        = .error (.valueError missingAddrMsg) ∧
      pubSubSourceInit none none il wa ta
        = .error (.valueError missingAddrMsg)) ∧
    (∀ sub il wa ta,
      pubSubSourceInit (some "") sub il wa ta
        = (pubSubSourceInit none sub il wa ta).map
            (fun src => { src with full_topic := some "" })) := by
  constructor
  · intro il wa ta
    exact ⟨by simp [pubSubSourceInit, truthy_empty],
           by simp [pubSubSourceInit, truthy]⟩
  · intro sub il wa ta
    by_cases hs : truthy sub = true
    · simp only [pubSubSourceInit, truthy_empty, truthy_none, hs]
      cases hp : parse_subscription (sub.getD "") <;>
        simp [hp, Except.map]
    · rw [Bool.not_eq_true] at hs
      simp [pubSubSourceInit, truthy_empty, truthy_none, hs, Except.map]

theorem truthy_some_optStr (o : Option String) : truthy (some (optStr o)) = truthy o := by
  cases o with
  | none => decide
  | some s => rfl

theorem truthy_some_getD (o : Option String) : truthy (some (o.getD "")) = truthy o := by
  cases o with
  | none => decide
  | some s => rfl

theorem truthy_true_exists (o : Option String) (h : truthy o = true) :
    ∃ u, o = some u ∧ u ≠ "" := by
  cases o with
  | none => exact absurd h (by decide)
  | some s => exact ⟨s, rfl, by simpa [truthy] using h⟩

/-- C6: exporting a successfully constructed `ReadFromPubSub` to the portable
`PubSubReadPayload` and reconstructing from it succeeds and yields a
transform with the same observable configuration — its exported payload
(topic, subscription, timestamp attribute, id attribute, with_attributes) is
identical. -/
theorem c6_read_payload_roundtrip :
    ∀ (t s il : Option String) (wa : Bool) (ta : Option String) (r : ReadFromPubSub),
    mkReadFromPubSub t s il wa ta = .ok r →
    ∃ r2, readFromRunnerApi (pubsubReadPayload r) = .ok r2 ∧
      pubsubReadPayload r2 = pubsubReadPayload r := by
  intro t s il wa ta r h
  unfold mkReadFromPubSub at h
  cases hinit : pubSubSourceInit t s il wa ta with
  | error e => rw [hinit] at h; simp at h
  | ok src =>
    rw [hinit] at h
    simp only [Except.ok.injEq] at h
    subst h
    by_cases ht : truthy t = true <;> by_cases hs : truthy s = true
    · simp [pubSubSourceInit, ht, hs] at hinit
    · obtain ⟨u, rfl, hune⟩ := truthy_true_exists t ht
      rw [Bool.not_eq_true] at hs
      simp only [pubSubSourceInit, ht, hs, Bool.or_false, Bool.and_false, Bool.not_true,
        Bool.false_eq_true, if_false, if_true, Bool.true_eq_false, Option.getD_some] at hinit
      cases hp : parse_topic u with
      | error e => rw [hp] at hinit; simp at hinit
      | ok pt =>
        rw [hp] at hinit
        simp only [Except.ok.injEq] at hinit
        subst hinit
        have htu : truthy (some (optStr (some u))) = true := by simp [truthy, optStr, hune]
        have hsu : truthy (some (optStr s)) = false := by rw [truthy_some_optStr]; exact hs
        refine ⟨⟨wa, ⟨some u, some (optStr s), some pt.2, none, some (optStr il), wa,
          some (optStr ta), some pt.1⟩⟩, ?_, ?_⟩
        · simp [pubsubReadPayload, readFromRunnerApi, mkReadFromPubSub,
            pubSubSourceInit, optStr, truthy_some_getD, ht, hs, hp]
        · simp [pubsubReadPayload, optStr]
    · obtain ⟨u, rfl, hune⟩ := truthy_true_exists s hs
      rw [Bool.not_eq_true] at ht
      simp only [pubSubSourceInit, ht, hs, Bool.false_or, Bool.false_and, Bool.not_true,
        Bool.false_eq_true, if_false, if_true, Bool.true_eq_false, Option.getD_some] at hinit
      cases hp : parse_subscription u with
      | error e => rw [hp] at hinit; simp at hinit
      | ok ps =>
        rw [hp] at hinit
        simp only [Except.ok.injEq] at hinit
        subst hinit
        have hsu : truthy (some (optStr (some u))) = true := by simp [truthy, optStr, hune]
        have htu : truthy (some (optStr t)) = false := by rw [truthy_some_optStr]; exact ht
        refine ⟨⟨wa, ⟨some (optStr t), some u, none, some ps.2, some (optStr il), wa,
          some (optStr ta), some ps.1⟩⟩, ?_, ?_⟩
        · simp [pubsubReadPayload, readFromRunnerApi, mkReadFromPubSub,
            pubSubSourceInit, optStr, truthy_some_getD, ht, hs, hp]
        · simp [pubsubReadPayload, optStr]
    · rw [Bool.not_eq_true] at ht hs
      simp [pubSubSourceInit, ht, hs] at hinit

/-- Witness for C6: round trip of a concrete topic read configuration. -/
theorem c6_read_payload_roundtrip_witness :
    ∃ r2, readFromRunnerApi (pubsubReadPayload
        ⟨true, ⟨some "projects/proj-aaaa/topics/t", none, some "t", none,
          some "lbl", true, none, some "proj-aaaa"⟩⟩) = .ok r2 ∧
      pubsubReadPayload r2 = pubsubReadPayload
        ⟨true, ⟨some "projects/proj-aaaa/topics/t", none, some "t", none,
          some "lbl", true, none, some "proj-aaaa"⟩⟩ := by
  apply c6_read_payload_roundtrip (some "projects/proj-aaaa/topics/t") none
    (some "lbl") true none
  decide

theorem multiInit_ok_inv (sources : List String) (wc : Bool) (idv : ScalarOrList)
    (wa : Bool) (tsv : ScalarOrList) (kw : List (String × String))
    (m : MultipleReadFromPubSub)
    (h : multiInit sources wc idv wa tsv kw = .ok m) :
    resolveMultiParam "id_label" idv sources.length = .ok m.id_label ∧
    resolveMultiParam "timestamp_attribute" tsv sources.length = .ok m.timestamp_attribute := by
  unfold multiInit at h
  cases h1 : resolveMultiParam "id_label" idv sources.length with
  | error e => rw [h1] at h; simp at h
  | ok idl =>
    rw [h1] at h
    cases h2 : resolveMultiParam "timestamp_attribute" tsv sources.length with
    | error e => rw [h2] at h; simp at h
    | ok tsa =>
      rw [h2] at h
      cases h3 : sources.find? (fun s => !sourcePatternOk s) with
      | some bad => rw [h3] at h; simp at h
      | none =>
        rw [h3] at h
        cases h4 : kw.find? (fun kv => kv.1 = "topic") with
        | some kv => rw [h4] at h; simp at h
        | none =>
          rw [h4] at h
          cases h5 : kw.find? (fun kv => kv.1 = "subscription") with
          | some kv => rw [h5] at h; simp at h
          | none =>
            rw [h5] at h
            simp only [Except.ok.injEq] at h
            subst h
            exact ⟨rfl, rfl⟩

/-- C7: in the fan-out constructor, a scalar (or absent) `id_label` /
`timestamp_attribute` is broadcast so that all N per-source values are that
same value; a list of a different length than the N sources fails with the
length-mismatch `ValueError` reporting the supplied length and N; and the
two parameters are validated independently (a `timestamp_attribute` list
mismatch is reported for every resolvable `id_label`). -/
theorem c7_per_source_params_broadcast_or_length_checked :
    ∀ (sources : List String) (wc wa : Bool) (kw : List (String × String)),
    (∀ v tsv m, multiInit sources wc (.scalar v) wa tsv kw = .ok m →
      m.id_label = List.replicate sources.length (some v)) ∧
    (∀ tsv m, multiInit sources wc .noneV wa tsv kw = .ok m →
      m.id_label = List.replicate sources.length none) ∧
    (∀ (xs : List String) tsv, xs.length ≠ sources.length →
      multiInit sources wc (.list xs) wa tsv kw
        = .error (.valueError (lenMismatchMsg "id_label" xs.length sources.length))) ∧
    (∀ v idv m, multiInit sources wc idv wa (.scalar v) kw = .ok m →
      m.timestamp_attribute = List.replicate sources.length (some v)) ∧
    (∀ idv m, multiInit sources wc idv wa .noneV kw = .ok m →
      m.timestamp_attribute = List.replicate sources.length none) ∧
    (∀ (xs : List String) idv idl, xs.length ≠ sources.length →
      resolveMultiParam "id_label" idv sources.length = .ok idl →
      multiInit sources wc idv wa (.list xs) kw
        = .error (.valueError (lenMismatchMsg "timestamp_attribute" xs.length sources.length))) := by
  intro sources wc wa kw
  refine ⟨?_, ?_, ?_, ?_, ?_, ?_⟩
  · intro v tsv m h
    have := (multiInit_ok_inv sources wc (.scalar v) wa tsv kw m h).1
    simp only [resolveMultiParam, Except.ok.injEq] at this
    exact this.symm
  · intro tsv m h
    have := (multiInit_ok_inv sources wc .noneV wa tsv kw m h).1
    simp only [resolveMultiParam, Except.ok.injEq] at this
    exact this.symm
  · intro xs tsv hlen
    simp [multiInit, resolveMultiParam, hlen]
  · intro v idv m h
    have := (multiInit_ok_inv sources wc idv wa (.scalar v) kw m h).2
    simp only [resolveMultiParam, Except.ok.injEq] at this
    exact this.symm
  · intro idv m h
    have := (multiInit_ok_inv sources wc idv wa .noneV kw m h).2
    simp only [resolveMultiParam, Except.ok.injEq] at this
    exact this.symm
  · intro xs idv idl hlen hres
    unfold multiInit
    rw [hres]
    simp [resolveMultiParam, hlen]

/-- Witness for C7: concrete broadcast and length-mismatch evaluations over
two sources. -/
theorem c7_per_source_params_witness :
    multiInit ["projects/proj-aaaa/topics/a", "projects/proj-aaaa/topics/b"]
        false (.list ["id1"]) false .noneV []
      = .error (.valueError (lenMismatchMsg "id_label" 1 2)) ∧
    multiInit ["projects/proj-aaaa/topics/a", "projects/proj-aaaa/topics/b"]
        false (.scalar "id") false (.list ["t1", "t2", "t3"]) []
      = .error (.valueError (lenMismatchMsg "timestamp_attribute" 3 2)) ∧
    (⟨["projects/proj-aaaa/topics/a", "projects/proj-aaaa/topics/b"], false, false,
      [some "id", some "id"], [none, none], []⟩ : MultipleReadFromPubSub).id_label
      = List.replicate 2 (some "id") := by
  have h := c7_per_source_params_broadcast_or_length_checked
    ["projects/proj-aaaa/topics/a", "projects/proj-aaaa/topics/b"] false false []
  refine ⟨h.2.2.1 ["id1"] .noneV (by decide), ?_, ?_⟩
  · exact h.2.2.2.2.2 ["t1", "t2", "t3"] (.scalar "id") [some "id", some "id"]
      (by decide) (by decide)
  · exact h.1 "id" .noneV
      ⟨["projects/proj-aaaa/topics/a", "projects/proj-aaaa/topics/b"], false, false,
        [some "id", some "id"], [none, none], []⟩ (by decide)

theorem mapM_to_proto_str_map (msgs : List PubsubMessage) :
    (msgs.map Element.message).mapM WriteToPubSub.to_proto_str
      = msgs.mapM PubsubMessage.to_proto_str := by
  induction msgs with
  | nil => rfl
  | cons m ms ih =>
    simp only [List.map_cons, List.mapM_cons, ih]
    rfl

/-- C9: with `with_attributes=True`, the write-side per-element conversion
rejects every element that is not a `PubsubMessage` with a `TypeError` whose
message names the element's runtime type and its value, and maps every
`PubsubMessage` input through the codec's `_to_proto_str` encoder before
handing bytes downstream. -/
theorem c9_write_rejects_non_messages_and_encodes_messages :
    (∀ e : Element, isMessage e = false →
      WriteToPubSub.to_proto_str e
        = .error (.typeError ("Unexpected element. Type: " ++ pyTypeOf e ++
            " (expected: PubsubMessage), value: " ++ pyReprElem e))) ∧
    (∀ (w : WriteToPubSub) (msgs : List PubsubMessage), w.with_attributes = true →
      writeExpand w (msgs.map Element.message)
        = match msgs.mapM PubsubMessage.to_proto_str with
          | .error e => .error e
          | .ok bs => .ok (bs.map Element.bytes)) := by
  constructor
  · intro e he
    cases e with
    | message m => simp [isMessage] at he
    | bytes b => rfl
    | str s => rfl
  · intro w msgs hwa
    simp only [writeExpand, hwa, if_true, mapM_to_proto_str_map]

/-- Witness for C9: a raw-bytes element is rejected with the type/value
naming `TypeError`, and a concrete message list is encoded to wire bytes. -/
theorem c9_write_type_check_witness :
    WriteToPubSub.to_proto_str (.bytes [7, 8])
      = .error (.typeError ("Unexpected element. Type: " ++ pyTypeOf (.bytes [7, 8]) ++
          " (expected: PubsubMessage), value: " ++ pyReprElem (.bytes [7, 8]))) ∧
    writeExpand
        ⟨true, none, none, ⟨"projects/proj-aaaa/topics/t", none, true, none, "proj-aaaa", "t"⟩⟩
        ([⟨some [1], some [("k", "v")]⟩].map Element.message)
      = .ok [.bytes (serializeProto [1] [("k", "v")])] := by
  have h := c9_write_rejects_non_messages_and_encodes_messages
  refine ⟨h.1 (.bytes [7, 8]) rfl, ?_⟩
  rw [h.2 ⟨true, none, none, ⟨"projects/proj-aaaa/topics/t", none, true, none, "proj-aaaa", "t"⟩⟩
    [⟨some [1], some [("k", "v")]⟩] rfl]
  rfl
